import Mathlib

/-!
Verification of the user-administration core of `evolution-backend`
(`src/controllers/adminController.js`), a role-based user lifecycle and
admin-to-location assignment service.

The controller is embedded shallowly: the Mongo user collection becomes a
`List User`, the location collection a `List Nat` of existing location ids,
and each Express handler a pure function from the database, the
authenticated actor context (`req.userId` / `req.userRole` / `req.user`)
and the request parameters to an `Outcome`. HTTP status codes are mapped to
the outcome taxonomy of the design (NotFound, Forbidden,
InvariantViolation, Conflict, InvalidInput, InternalError); success carries
the new database (or the fetched record). Audit metadata
(`creadoPor` / `ultimaModificacion`), free-text search, response projection
and pagination slicing are not needed by any property below and are
omitted; every guard, permission branch and field update of the handlers is
translated.

The Mongoose `User` model itself is not part of the sources; where a
handler calls into it (`puedeAdministrar`, query middleware semantics, the
document schema) the corresponding definition is modelled from the spec and
marked `Modelled from the spec:` in its doc comment.
-/

/-- The three role tiers of the system. -/
inductive Role where
  | usuario
  | admin
  | superAdmin
deriving DecidableEq, Repr

/-- A stored user document. Location ids and user ids are `Nat` (Mongo
ObjectIds compared via `toString()` equality in the source). Credential
fields (`password`, `intentosFallidos`, `bloqueadoHasta`,
`passwordResetToken`, `passwordResetExpires`) are carried so that the
update handler's stripping of them is observable. -/
structure User where
  id : Nat
  nombre : String
  email : String
  role : Role
  locales : List Nat
  localPrincipal : Option Nat
  activo : Bool
  enLinea : Bool
  esAdministradorLocal : Bool
  password : String
  intentosFallidos : Nat
  bloqueadoHasta : Option Nat
  passwordResetToken : Option String
  passwordResetExpires : Option Nat
deriving DecidableEq, Repr

/-- The authenticated actor context resolved by the auth middleware:
`req.userId`, `req.userRole`, `req.user.locales`. -/
structure Actor where
  userId : Nat
  role : Role
  locales : List Nat
deriving DecidableEq, Repr

/-- Handler outcome, following the design's failure taxonomy. `ok` carries
the post-state of the user collection; `okUser` carries a fetched record.
Errors return before any write, so they carry no database. -/
inductive Outcome where
  | ok (db : List User)
  | okUser (u : User)
  | notFound
  | forbidden
  | invariantViolation
  | conflict
  | invalidInput
  | internalError
deriving DecidableEq, Repr

/-- Maximum number of superAdmins (`MAX_SUPER_ADMINS = 4`). -/
def MAX_SUPER_ADMINS : Nat := 4

/-- Modelled from the spec: the User Store's `findById` resolves a document
by id; the spec lists an explicit include-inactive toggle only for count
queries, and every target a handler resolves this way is subsequently
guarded by its own checks. -/
def findById (db : List User) (userId : Nat) : Option User :=
  db.find? (fun u => u.id == userId)

/-- Query `User.findOne({_id, role:'admin'})` as used by the assignment service. -/
def findAdmin (db : List User) (adminId : Nat) : Option User :=
  db.find? (fun u => u.id == adminId && u.role == Role.admin)

/-- Count `User.countDocuments({role:'superAdmin'})`. Modelled from the spec: the
superAdmin cap counts active plus inactive holders of the role. -/
def countSuperAdmins (db : List User) : Nat :=
  (db.filter (fun u => u.role == Role.superAdmin)).length

/-- Count `User.countDocuments({role:'superAdmin', activo:true})`. -/
def countActiveSuperAdmins (db : List User) : Nat :=
  (db.filter (fun u => u.role == Role.superAdmin && u.activo)).length

/-- Count `User.countDocuments({role:'admin', locales: l, activo:true})`:
active admins assigned to location `l`. -/
def countActiveAdminsAt (db : List User) (l : Nat) : Nat :=
  (db.filter (fun u => u.role == Role.admin && u.activo && u.locales.contains l)).length

/-- Modelled from the spec: the user schema's location associations are
`locales` (an ordered set) and `localPrincipal`; there is no singular
`local` field, so the source's `user.local` property access yields
`undefined`. -/
def User.localField (_ : User) : Option Nat := none

/-- Count `User.countDocuments({role:'admin', local: l, activo:true})` as issued
by `deleteUser`: it filters on the nonexistent singular `local` field, so
no stored document matches. -/
def countActiveAdminsBySingularLocal (db : List User) (l : Nat) : Nat :=
  (db.filter (fun u => u.role == Role.admin && u.localField == some l && u.activo)).length

/-- Does the target share at least one location with the actor?
(`user.locales.some(l => req.user.locales.some(a => a == l))`). -/
def sharesLocal (target : User) (actor : Actor) : Bool :=
  target.locales.any (fun l => actor.locales.contains l)

/-! ## Admin-location assignment service -/

/-- Handler `assignLocalToAdmin` (adminController.js lines 978-1028): validates the
local id is present, the admin exists with role `admin`, the local exists,
and is not already assigned; appends it to `locales` and makes it
`localPrincipal` exactly when it is the first (only) assigned location. -/
def assignLocalToAdmin (db : List User) (locals : List Nat) (adminId : Nat)
    (localId : Option Nat) : Outcome :=
  match localId with
  | none => Outcome.invalidInput
  | some lid =>
    match findAdmin db adminId with
    | none => Outcome.notFound
    | some admin =>
      if !(locals.contains lid) then Outcome.notFound
      else if admin.locales.contains lid then Outcome.conflict
      else
        let newLocales := admin.locales ++ [lid]
        let newPrincipal :=
          if newLocales.length == 1 then some lid else admin.localPrincipal
        Outcome.ok (db.map (fun u =>
          if u.id == adminId then
            { u with locales := newLocales, localPrincipal := newPrincipal }
          else u))

/-- Handler `removeLocalFromAdmin` (adminController.js lines 1035-1082): rejects a
local not currently assigned (Conflict) and removal of the only assigned
local (InvariantViolation); otherwise filters it out and, when it was the
`localPrincipal`, promotes the new first element of the remaining list. -/
def removeLocalFromAdmin (db : List User) (adminId localId : Nat) : Outcome :=
  match findAdmin db adminId with
  | none => Outcome.notFound
  | some admin =>
    if !(admin.locales.contains localId) then Outcome.conflict
    else if admin.locales.length == 1 then Outcome.invariantViolation
    else
      let newLocales := admin.locales.filter (fun id => id != localId)
      let newPrincipal :=
        if admin.localPrincipal == some localId then newLocales.head?
        else admin.localPrincipal
      Outcome.ok (db.map (fun u =>
        if u.id == adminId then
          { u with locales := newLocales, localPrincipal := newPrincipal }
        else u))

/-- A concrete admin with no assigned locations, used for round-trip
scenarios of the assignment service. -/
def adminA : User :=
  { id := 2, nombre := "A", email := "a@x", role := Role.admin,
    locales := [], localPrincipal := none, activo := true, enLinea := false,
    esAdministradorLocal := false, password := "p", intentosFallidos := 0,
    bloqueadoHasta := none, passwordResetToken := none,
    passwordResetExpires := none }

/-! ## User lifecycle service -/

/-- Comparison `adminLocal.toString() === local.toString()` at line 212 of
`getUserById`: `adminLocal` is an ObjectId, whose `toString()` is the 24
hex characters of the id, but `local` is a Local document hydrated by
`.populate('locales', ...)` at line 187, whose `toString()` is an
object-inspect string — the two are never equal, for any pair of ids. The
sibling handlers (`resetUserPassword` line 609, `toggleUserStatus` line
676) compare `local._id.toString()` instead; only `getUserById` omits
`._id`. -/
def populatedToStringEq (_adminLocal _populatedLocal : Nat) : Bool := false

/-- The `tienePermisos` check of `getUserById` (lines 210-214):
`user.locales.some(local => req.user.locales.some(adminLocal =>
adminLocal.toString() === local.toString()))` over populated `local`
documents — constantly false because the element test never matches. -/
def sharesLocalPopulated (target : User) (actor : Actor) : Bool :=
  target.locales.any (fun l => actor.locales.any (fun a => populatedToStringEq a l))

/-- Handler `getUserById` (adminController.js lines 181-236): resolves the
target (populating `locales`); an `admin` actor may not see a `superAdmin`
target, and is then subject to the shared-location check of lines 210-214 —
which, comparing ObjectIds against populated documents, never passes, so in
effect the handler denies an `admin` actor every found target. -/
def getUserById (db : List User) (actor : Actor) (userId : Nat) : Outcome :=
  match findById db userId with
  | none => Outcome.notFound
  | some user =>
    if actor.role == Role.admin && user.role == Role.superAdmin then
      Outcome.forbidden
    else if actor.role == Role.admin && !(sharesLocalPopulated user actor) then
      Outcome.forbidden
    else Outcome.okUser user

/-- The `createUser` request body (adminController.js line 241): the fields
the handler destructures, with `role` and `locales` optional as in the
source. -/
structure CreateBody where
  nombre : String
  email : String
  password : String
  role : Option Role
  locales : Option (List Nat)
deriving DecidableEq, Repr

/-- Condition `role && role !== 'usuario'` (line 257): a role was supplied and it is
not `usuario`. -/
def CreateBody.roleNotUsuario (b : CreateBody) : Bool :=
  match b.role with
  | some r => r != Role.usuario
  | none => false

/-- Condition `locales && Array.isArray(locales) && locales.length > 0` on the
destructured `locales` binding. -/
def CreateBody.hasLocales (b : CreateBody) : Bool :=
  match b.locales with
  | some ls => !ls.isEmpty
  | none => false

/-- Handler `createUser` (adminController.js lines 239-370). Checks, in source
order: the superAdmin cap (counting active plus inactive), the
admin-actor policy (may only create `usuario`-role users; supplied locales
must all be the actor's own; when none are supplied the handler assigns
`req.body.locales = req.user.locales`), the superAdmin-actor existence
check of every supplied local, and email uniqueness. The document is then
built from the destructured `locales` binding (line 327) — NOT from
`req.body.locales` — so the admin-actor default written at line 281 is
never read: the translation reproduces this by building the new user from
`body.locales` alone. `newId` stands for the id Mongo assigns. -/
def createUser (db : List User) (locals : List Nat) (actor : Actor)
    (body : CreateBody) (newId : Nat) : Outcome :=
  if body.role == some Role.superAdmin && MAX_SUPER_ADMINS ≤ countSuperAdmins db then
    Outcome.invariantViolation
  else if actor.role == Role.admin && body.roleNotUsuario then
    Outcome.forbidden
  else if actor.role == Role.admin && body.hasLocales
          && !((body.locales.getD []).all (fun lid => actor.locales.contains lid)) then
    Outcome.forbidden
  else if actor.role == Role.superAdmin && body.hasLocales
          && !((body.locales.getD []).all (fun lid => locals.contains lid)) then
    Outcome.invalidInput
  else if db.any (fun u => u.email == body.email) then
    Outcome.conflict
  else
    let suppliedLocales := body.locales.getD []
    let newRole := body.role.getD Role.usuario
    let newUser : User :=
      { id := newId
        nombre := body.nombre
        email := body.email
        role := newRole
        locales := suppliedLocales
        localPrincipal := suppliedLocales.head?
        activo := true
        enLinea := false
        esAdministradorLocal := newRole == Role.admin && !suppliedLocales.isEmpty
        password := body.password
        intentosFallidos := 0
        bloqueadoHasta := none
        passwordResetToken := none
        passwordResetExpires := none }
    Outcome.ok (db ++ [newUser])

/-- The `updateUser` payload (`req.body`): every field is optional — absent
fields are not `$set`. `esAdministradorLocal` is carried because nothing in
the handler removes it from a client payload. -/
structure UpdateData where
  nombre : Option String
  role : Option Role
  locales : Option (List Nat)
  localPrincipal : Option Nat
  esAdministradorLocal : Option Bool
  password : Option String
  intentosFallidos : Option Nat
  bloqueadoHasta : Option Nat
  passwordResetToken : Option String
  passwordResetExpires : Option Nat
deriving DecidableEq, Repr

/-- A payload with no fields set. -/
def UpdateData.empty : UpdateData :=
  { nombre := none
    role := none
    locales := none
    localPrincipal := none
    esAdministradorLocal := none
    password := none
    intentosFallidos := none
    bloqueadoHasta := none
    passwordResetToken := none
    passwordResetExpires := none }

/-- Condition `!updateData.locales || !updateData.locales.length` (line 421). -/
def UpdateData.localesEmpty (d : UpdateData) : Bool :=
  match d.locales with
  | some ls => ls.isEmpty
  | none => true

/-- Condition `updateData.locales && updateData.locales.length > 0`. -/
def UpdateData.hasLocales (d : UpdateData) : Bool :=
  match d.locales with
  | some ls => !ls.isEmpty
  | none => false

/-- Modelled from the spec: the User model method `puedeAdministrar`
called at line 405 realises the mutation policy for `admin` actors —
an admin may administer only `usuario`-role targets that share at least
one location with the actor (canMutate requires canView; canView admits
only `usuario` targets with a shared location). -/
def puedeAdministrar (actor : Actor) (target : User) : Bool :=
  target.role == Role.usuario && sharesLocal target actor

/-- Write `findByIdAndUpdate(userId, {$set: updateData})`: each present payload
field overwrites the stored one. -/
def applyUpdate (u : User) (d : UpdateData) : User :=
  { u with
    nombre := d.nombre.getD u.nombre
    role := d.role.getD u.role
    locales := d.locales.getD u.locales
    localPrincipal := match d.localPrincipal with
      | some l => some l
      | none => u.localPrincipal
    esAdministradorLocal := d.esAdministradorLocal.getD u.esAdministradorLocal
    password := d.password.getD u.password
    intentosFallidos := d.intentosFallidos.getD u.intentosFallidos
    bloqueadoHasta := match d.bloqueadoHasta with
      | some b => some b
      | none => u.bloqueadoHasta
    passwordResetToken := match d.passwordResetToken with
      | some t => some t
      | none => u.passwordResetToken
    passwordResetExpires := match d.passwordResetExpires with
      | some e => some e
      | none => u.passwordResetExpires }

/-- Lines 403-417 (payload side): for an `admin` actor the privileged
fields `role`, `locales` and `localPrincipal` are deleted from the payload;
other actors keep theirs. -/
def stripAdmin (actor : Actor) (upd : UpdateData) : UpdateData :=
  if actor.role == Role.admin then
    { upd with role := none, locales := none, localPrincipal := none }
  else upd

/-- Lines 459-464: credential fields are deleted from every payload. -/
def stripCredentials (upd : UpdateData) : UpdateData :=
  { upd with
    password := none
    intentosFallidos := none
    bloqueadoHasta := none
    passwordResetToken := none
    passwordResetExpires := none }

/-- Lines 472-476: setting role `admin` with locations present (supplied in
the payload, or already stored on the target) forces
`esAdministradorLocal := true`. -/
def applyFlagRule (user : User) (upd : UpdateData) : UpdateData :=
  if upd.role == some Role.admin && (upd.hasLocales || !user.locales.isEmpty) then
    { upd with esAdministradorLocal := some true }
  else upd

/-- Lines 478-481: when locations are supplied, `localPrincipal` becomes
the first of them. -/
def applyPrincipalRule (upd : UpdateData) : UpdateData :=
  match upd.locales with
  | some (h :: _) => { upd with localPrincipal := some h }
  | _ => upd

/-- The payload `updateUser` finally applies with `$set`, after the four
in-source transformation steps in their source order. -/
def finalPayload (actor : Actor) (user : User) (upd : UpdateData) : UpdateData :=
  applyPrincipalRule (applyFlagRule user (stripCredentials (stripAdmin actor upd)))

/-- Steps of `updateUser` after the cap block and target resolution
(adminController.js lines 402-505): an `admin` actor must pass
`puedeAdministrar` (line 405), and on success its payload has `role`,
`locales`, `localPrincipal` deleted before the later checks (the guards
below therefore read `stripAdmin actor upd`); a `superAdmin` actor
promoting to `admin` must leave the target with at least one location
(lines 420-427) and every supplied local must exist (lines 429-440);
setting role `superAdmin` (line 444), or touching a `superAdmin` target
(line 452), requires a `superAdmin` actor; then the transformed payload is
`$set` on the target. -/
def updateUserResolved (db : List User) (locals : List Nat) (actor : Actor)
    (userId : Nat) (user : User) (upd : UpdateData) : Outcome :=
  if actor.role == Role.admin && !(puedeAdministrar actor user) then
    Outcome.forbidden
  else if actor.role == Role.superAdmin
      && (stripAdmin actor upd).role == some Role.admin
      && (stripAdmin actor upd).localesEmpty && user.locales.isEmpty then
    Outcome.invalidInput
  else if actor.role == Role.superAdmin
      && (match (stripAdmin actor upd).locales with
          | some ls => !(ls.all (fun lid => locals.contains lid))
          | none => false) then
    Outcome.invalidInput
  else if (stripAdmin actor upd).role == some Role.superAdmin
      && actor.role != Role.superAdmin then
    Outcome.forbidden
  else if user.role == Role.superAdmin && actor.role != Role.superAdmin then
    Outcome.forbidden
  else
    Outcome.ok (db.map (fun u =>
      if u.id == userId then applyUpdate u (finalPayload actor user upd) else u))

/-- Handler `updateUser` (adminController.js lines 373-505), in source order:

1. When the payload role is `superAdmin`, the handler resolves the target
   and reads `user.role` without a null check (line 381): an absent target
   throws a TypeError, caught as a 500 (`internalError`). When the target
   is not already a superAdmin and the cap (active plus inactive) is
   reached, the cap violation is returned.
2. The target is resolved again; absent targets are `notFound`.
3. The remaining checks and the write are `updateUserResolved`. -/
def updateUser (db : List User) (locals : List Nat) (actor : Actor)
    (userId : Nat) (upd : UpdateData) : Outcome :=
  if upd.role == some Role.superAdmin then
    match findById db userId with
    | none => Outcome.internalError
    | some u =>
      if u.role != Role.superAdmin && MAX_SUPER_ADMINS ≤ countSuperAdmins db then
        Outcome.invariantViolation
      else
        match findById db userId with
        | none => Outcome.notFound
        | some user => updateUserResolved db locals actor userId user upd
  else
    match findById db userId with
    | none => Outcome.notFound
    | some user => updateUserResolved db locals actor userId user upd

/-- Mark a user inactive and offline (`activo:false, enLinea:false`). -/
def softDeactivate (db : List User) (userId : Nat) : List User :=
  db.map (fun u =>
    if u.id == userId then { u with activo := false, enLinea := false } else u)

/-- Handler `deleteUser` (adminController.js lines 508-579): `superAdmin`-only;
guards the last active superAdmin; then attempts to guard the last active
admin of a location, but reads the nonexistent singular `user.local` field
(lines 542-547), so the condition is never taken; finally soft-deletes. -/
def deleteUser (db : List User) (actor : Actor) (userId : Nat) : Outcome :=
  if actor.role != Role.superAdmin then Outcome.forbidden
  else
    match findById db userId with
    | none => Outcome.notFound
    | some user =>
      if user.role == Role.superAdmin && countActiveSuperAdmins db ≤ 1 then
        Outcome.invariantViolation
      else if user.role == Role.admin && (user.localField).isSome
          && countActiveAdminsBySingularLocal db ((user.localField).getD 0) ≤ 1 then
        Outcome.invariantViolation
      else Outcome.ok (softDeactivate db userId)

/-- Set a user's `activo` flag; deactivating also forces `enLinea:false`. -/
def setActivo (db : List User) (userId : Nat) (activo : Bool) : List User :=
  db.map (fun u =>
    if u.id == userId then
      { u with activo := activo, enLinea := if activo then u.enLinea else false }
    else u)

/-- Handler `toggleUserStatus` (adminController.js lines 647-748): resolves the
target including inactive users; an `admin` actor may not touch `admin` or
`superAdmin` targets and only targets sharing a location; deactivation of
the last active superAdmin is rejected, as is deactivation of an admin one
of whose locations would be left with no active admin (checked per location
over `user.locales`); then the flag is set. -/
def toggleUserStatus (db : List User) (actor : Actor) (userId : Nat)
    (activo : Bool) : Outcome :=
  match findById db userId with
  | none => Outcome.notFound
  | some user =>
    if actor.role == Role.admin
        && (user.role == Role.superAdmin || user.role == Role.admin) then
      Outcome.forbidden
    else if actor.role == Role.admin && !(sharesLocal user actor) then
      Outcome.forbidden
    else if user.role == Role.superAdmin && !activo
        && countActiveSuperAdmins db ≤ 1 then
      Outcome.invariantViolation
    else if user.role == Role.admin && !user.locales.isEmpty && !activo
        && user.locales.any (fun l => countActiveAdminsAt db l ≤ 1) then
      Outcome.invariantViolation
    else Outcome.ok (setActivo db userId activo)

/-! ## User listing (`getAllUsers`) query construction -/

/-- A Mongo role condition: exact match (`role: r`) or exclusion
(`role: {$ne: r}`). -/
inductive RoleFilter where
  | eq (r : Role)
  | ne (r : Role)
deriving DecidableEq, Repr

/-- A Mongo condition on the `locales` array: membership of one id
(`locales: l`) or intersection with a list (`locales: {$in: ls}`). -/
inductive LocalesFilter where
  | mem (l : Nat)
  | anyIn (ls : List Nat)
deriving DecidableEq, Repr

/-- The `filters` object `getAllUsers` accumulates before querying. -/
structure Filters where
  roleF : Option RoleFilter
  activoF : Option Bool
  localesF : Option LocalesFilter
deriving DecidableEq, Repr

/-- Query-string parameters of `getAllUsers` relevant to the filter
(`req.query.role`, `req.query.activo`, `req.query.local`); free-text
`search` is omitted (regex matching, touched by no property here). -/
structure ListQuery where
  role : Option Role
  activo : Option Bool
  localQ : Option Nat
deriving DecidableEq, Repr

/-- Filter construction of `getAllUsers` (adminController.js lines 18-41):
the query-string filters, then for an `admin` actor the scoping override —
`locales: {$in: req.user.locales}` only when the actor has a non-empty
`locales` list, and `role: {$ne:'superAdmin'}` always. -/
def buildFilters (q : ListQuery) (actor : Actor) : Filters :=
  let f : Filters :=
    { roleF := q.role.map RoleFilter.eq
      activoF := q.activo
      localesF := q.localQ.map LocalesFilter.mem }
  if actor.role == Role.admin then
    let f1 :=
      if !actor.locales.isEmpty then
        { f with localesF := some (LocalesFilter.anyIn actor.locales) }
      else f
    { f1 with roleF := some (RoleFilter.ne Role.superAdmin) }
  else f

/-- Does a role satisfy a role condition? -/
def roleMatches (rf : RoleFilter) (r : Role) : Bool :=
  match rf with
  | RoleFilter.eq x => r == x
  | RoleFilter.ne x => r != x

/-- Does a `locales` list satisfy a locales condition? -/
def localesMatches (lf : LocalesFilter) (ls : List Nat) : Bool :=
  match lf with
  | LocalesFilter.mem l => ls.contains l
  | LocalesFilter.anyIn xs => ls.any (fun l => xs.contains l)

/-- Does a stored user match the accumulated filters? -/
def matchesFilters (u : User) (f : Filters) : Bool :=
  (match f.roleF with | some rf => roleMatches rf u.role | none => true)
  && (match f.activoF with | some a => u.activo == a | none => true)
  && (match f.localesF with | some lf => localesMatches lf u.locales | none => true)

/-- The set of users the `getAllUsers` find (with `includeInactive:true`)
matches, before pagination slicing. -/
def getAllUsersMatched (db : List User) (q : ListQuery) (actor : Actor) : List User :=
  db.filter (fun u => matchesFilters u (buildFilters q actor))

/-! ## Concrete fixtures -/

/-- Build a stored user with the given id, role, locations and status;
remaining fields take the creation defaults of the system. -/
def mkUser (i : Nat) (r : Role) (ls : List Nat) (act : Bool) : User :=
  { id := i
    nombre := "n"
    email := toString i
    role := r
    locales := ls
    localPrincipal := ls.head?
    activo := act
    enLinea := false
    esAdministradorLocal := r == Role.admin && !ls.isEmpty
    password := "pw"
    intentosFallidos := 0
    bloqueadoHasta := none
    passwordResetToken := none
    passwordResetExpires := none }

/-- Database for the C1 failing input: one active superAdmin and one
active admin who is the sole active admin of location 10. -/
def dbSoleAdmin : List User :=
  [mkUser 1 Role.superAdmin [] true, mkUser 2 Role.admin [10] true]

/-- An admin-role target assigned to location 10, for C2. -/
def adminTarget : User := mkUser 3 Role.admin [10] true

/-- Database with the superAdmin cap (4) reached, plus one active
`usuario`-role user at location 10. -/
def dbCapReached : List User :=
  [mkUser 11 Role.superAdmin [] true, mkUser 12 Role.superAdmin [] true,
   mkUser 13 Role.superAdmin [] true, mkUser 14 Role.superAdmin [] true,
   mkUser 15 Role.usuario [10] true]

/-- Database with the superAdmin cap (4) reached, plus an active
`admin`-role user (id 16) at location 10. -/
def dbCapReachedAdmin : List User :=
  [mkUser 11 Role.superAdmin [] true, mkUser 12 Role.superAdmin [] true,
   mkUser 13 Role.superAdmin [] true, mkUser 14 Role.superAdmin [] true,
   mkUser 16 Role.admin [10] true]

/-- Database with the cap not reached: one superAdmin plus one active
`usuario`-role user at location 10. -/
def dbCapFree : List User :=
  [mkUser 11 Role.superAdmin [] true, mkUser 15 Role.usuario [10] true]

/-- Payload submitting a `superAdmin` role change plus an innocuous field. -/
def updRolePlusNombre : UpdateData :=
  { UpdateData.empty with role := some Role.superAdmin, nombre := some "x" }

/-- Payload demoting the target to `usuario`. -/
def updDemote : UpdateData := { UpdateData.empty with role := some Role.usuario }

/-- Payload submitting only a role change to `superAdmin`. -/
def updPromote : UpdateData := { UpdateData.empty with role := some Role.superAdmin }

/-- The admin-actor strip of `updateUser`: the privileged fields deleted at
lines 415-417 and the credential fields deleted at lines 460-464. -/
def adminStripped (d : UpdateData) : UpdateData :=
  { d with
    role := none
    locales := none
    localPrincipal := none
    password := none
    intentosFallidos := none
    bloqueadoHasta := none
    passwordResetToken := none
    passwordResetExpires := none }

/-- Database with two active superAdmins, for the C5 witness. -/
def dbTwoSupers : List User :=
  [mkUser 41 Role.superAdmin [] true, mkUser 42 Role.superAdmin [] true]

/-- Payload updating only the mundane `nombre` field. -/
def updNombreOnly : UpdateData := { UpdateData.empty with nombre := some "y" }

/-- Single-admin database for the flag-preservation scenario. -/
def dbFlagDemo : List User := [mkUser 30 Role.admin [10] true]

/-- The database after a superAdmin applies a name-only update to the admin
of `dbFlagDemo`. -/
def dbFlagDemoAfter : List User :=
  dbFlagDemo.map (fun u =>
    if u.id == 30 then
      applyUpdate u (finalPayload ⟨31, Role.superAdmin, []⟩
        (mkUser 30 Role.admin [10] true) updNombreOnly)
    else u)

/-- The user document produced by a superAdmin creating an admin with
location 10 (id 7, nombre "n", email "e", password "p"). -/
def createdAdmin : User :=
  { id := 7
    nombre := "n"
    email := "e"
    role := Role.admin
    locales := [10]
    localPrincipal := some 10
    activo := true
    enLinea := false
    esAdministradorLocal := true
    password := "p"
    intentosFallidos := 0
    bloqueadoHasta := none
    passwordResetToken := none
    passwordResetExpires := none }

/-! ## General lemmas -/

/-- Applying a `$set` payload never changes the document id. -/
theorem applyUpdate_id (u : User) (d : UpdateData) : (applyUpdate u d).id = u.id := rfl

/-- Resolving by id after an id-preserving in-place modification yields the
modified document. -/
theorem findById_modify (db : List User) (userId : Nat) (f : User → User)
    (hf : ∀ u, (f u).id = u.id) :
    findById (db.map fun u => if u.id == userId then f u else u) userId
      = (findById db userId).map f := by
  induction db with
  | nil => rfl
  | cons a t ih =>
    simp only [List.map_cons, findById] at *
    by_cases h : a.id = userId
    · rw [if_pos (by simpa using h)]
      rw [List.find?_cons_of_pos _ (by simp [hf, h]),
          List.find?_cons_of_pos _ (by simp [h])]
      simp
    · rw [if_neg (by simpa using h)]
      rw [List.find?_cons_of_neg _ (by simp [h]),
          List.find?_cons_of_neg _ (by simp [h])]
      exact ih

/-! ## Claims -/

/-- C7: For an admin `A` with no assigned locations: assigning location
`X = 10` sets `A.localPrincipal = X` and a subsequent removal of `X` is
rejected as the only location; assigning `X` then `Y = 11` leaves
`A.localPrincipal = X` (first wins), and then removing `X` reassigns
`A.localPrincipal` to `Y`, the new first element of the remaining ordered
set. -/
theorem c7_assign_remove_roundtrip :
    (∃ db1, assignLocalToAdmin [adminA] [10, 11] 2 (some 10) = Outcome.ok db1 ∧
      (findAdmin db1 2).map User.localPrincipal = some (some 10) ∧
      removeLocalFromAdmin db1 2 10 = Outcome.invariantViolation ∧
      (∃ db2, assignLocalToAdmin db1 [10, 11] 2 (some 11) = Outcome.ok db2 ∧
        (findAdmin db2 2).map User.localPrincipal = some (some 10) ∧
        (∃ db3, removeLocalFromAdmin db2 2 10 = Outcome.ok db3 ∧
          (findAdmin db3 2).map User.localPrincipal = some (some 11) ∧
          (findAdmin db3 2).map User.locales = some [11]))) := by
  refine ⟨_, rfl, by decide, by decide,
    ⟨_, rfl, by decide, ⟨_, rfl, by decide, by decide⟩⟩⟩

/-- C1: On a database where user 2 is the sole active admin of location 10,
`toggleUserStatus(activo:false)` correctly rejects with the invariant
violation, but `deleteUser` succeeds — it soft-deletes the admin and leaves
location 10 with zero active admins, because its guard reads the
nonexistent singular `user.local` field instead of `user.locales`. -/
theorem c1_deleteUser_skips_last_admin_guard :
    countActiveAdminsAt dbSoleAdmin 10 = 1 ∧
    toggleUserStatus dbSoleAdmin ⟨1, Role.superAdmin, []⟩ 2 false
      = Outcome.invariantViolation ∧
    (∃ db', deleteUser dbSoleAdmin ⟨1, Role.superAdmin, []⟩ 2 = Outcome.ok db' ∧
      (findById db' 2).map User.activo = some false ∧
      countActiveAdminsAt db' 10 = 0) := by
  refine ⟨by decide, by decide, ⟨_, rfl, by decide, by decide⟩⟩

/-- C2 counterexample: with the superAdmin cap already reached, an `admin`
actor with locations `[10]` submits an update `{role:'superAdmin'}` against
an `admin`-role target (id 16) that shares location 10 — the result is the
cap invariant violation (the cap block at lines 378-390 runs before every
permission check), not the Forbidden denial the claim requires for every
mutate request on an `admin` target. -/
theorem c2_counterexample :
    (findById dbCapReachedAdmin 16).map User.role = some Role.admin ∧
    MAX_SUPER_ADMINS ≤ countSuperAdmins dbCapReachedAdmin ∧
    updateUser dbCapReachedAdmin [10] ⟨20, Role.admin, [10]⟩ 16 updPromote
      = Outcome.invariantViolation := by
  decide

/-- C3: An `admin` actor with locations `[10]` creates a user supplying no
locations: the handler writes the default to `req.body.locales` but then
builds the document from the stale destructured `locales` binding, so the
created user ends up with no locations at all (locales `[]`, no
`localPrincipal`) instead of the actor's location set. The other two parts
of the claim hold at concrete inputs: a non-`usuario` role is Forbidden and
a location outside the actor's own set is Forbidden. -/
theorem c3_admin_default_locales_lost :
    (∃ db', createUser [] [10] ⟨5, Role.admin, [10]⟩ ⟨"n", "e", "p", none, none⟩ 6
        = Outcome.ok db' ∧
      (findById db' 6).map User.locales = some [] ∧
      (findById db' 6).map User.localPrincipal = some none) ∧
    createUser [] [10] ⟨5, Role.admin, [10]⟩ ⟨"n", "e", "p", some Role.admin, none⟩ 6
      = Outcome.forbidden ∧
    createUser [] [10] ⟨5, Role.admin, [10]⟩ ⟨"n", "e", "p", none, some [99]⟩ 6
      = Outcome.forbidden := by
  refine ⟨⟨_, rfl, by decide, by decide⟩, by decide, by decide⟩

/-- C6 counterexample: with the superAdmin cap already reached, an `admin`
actor submits `{role:'superAdmin', nombre:'x'}` against a permitted
`usuario` target — the request is rejected with the cap violation instead
of having `role` silently stripped and the update proceed. -/
theorem c6_counterexample :
    puedeAdministrar ⟨20, Role.admin, [10]⟩ (mkUser 15 Role.usuario [10] true) = true ∧
    updateUser dbCapReached [10] ⟨20, Role.admin, [10]⟩ 15 updRolePlusNombre
      = Outcome.invariantViolation := by
  decide

/-- C8 counterexample: a superAdmin demotes an admin (locations `[10]`,
`esAdministradorLocal = true`) to `usuario`; the update succeeds but the
derived flag stays `true` while the role is no longer `admin`, breaking the
biconditional. -/
theorem c8_counterexample :
    ∃ db', updateUser [mkUser 30 Role.admin [10] true] [] ⟨31, Role.superAdmin, []⟩
        30 updDemote = Outcome.ok db' ∧
      (findById db' 30).map User.role = some Role.usuario ∧
      (findById db' 30).map User.esAdministradorLocal = some true := by
  refine ⟨_, rfl, by decide, by decide⟩

/-- C10 counterexample: with the cap reached and a target id matching no
user, an update whose payload sets role `superAdmin` yields the internal
error (the handler dereferences the absent user), not the cap violation the
claim predicts. -/
theorem c10_counterexample :
    updateUser dbCapReached [] ⟨1, Role.superAdmin, []⟩ 99 updPromote
      = Outcome.internalError ∧
    findById dbCapReached 99 = none ∧
    MAX_SUPER_ADMINS ≤ countSuperAdmins dbCapReached := by
  decide

/-- C10 (amended): whenever the payload sets role `superAdmin` and the
target id matches no user, `updateUser` reads `user.role` on the absent
document and the request yields `internalError` — never `notFound` and
never the cap violation, regardless of the superAdmin count. -/
theorem c10_absent_target_internalError (db : List User) (locals : List Nat)
    (actor : Actor) (userId : Nat) (upd : UpdateData)
    (hrole : upd.role = some Role.superAdmin)
    (habs : findById db userId = none) :
    updateUser db locals actor userId upd = Outcome.internalError := by
  unfold updateUser
  simp only [hrole, habs]
  rfl

/-- Closed instance of the amended C10 theorem. -/
theorem c10_absent_target_internalError_witness :
    updateUser dbCapReached [] ⟨1, Role.superAdmin, []⟩ 99 updPromote
      = Outcome.internalError :=
  c10_absent_target_internalError dbCapReached [] ⟨1, Role.superAdmin, []⟩ 99
    updPromote (by decide) (by decide)

/-- C9: For an `admin` actor whose `locales` list is empty, `getAllUsers`
applies no location restriction: the accumulated filters keep only the
query-string conditions plus the `role != superAdmin` exclusion, and with
an empty query string the matched set is every user in the system except
`superAdmin`-role users. -/
theorem c9_admin_empty_locales_unscoped (db : List User) (q : ListQuery)
    (actor : Actor) (h1 : actor.role = Role.admin) (h2 : actor.locales = []) :
    buildFilters q actor =
      { roleF := some (RoleFilter.ne Role.superAdmin)
        activoF := q.activo
        localesF := q.localQ.map LocalesFilter.mem } ∧
    (q.activo = none → q.localQ = none →
      getAllUsersMatched db q actor
        = db.filter (fun u => u.role != Role.superAdmin)) := by
  constructor
  · simp [buildFilters, h1, h2]
  · intro ha hl
    unfold getAllUsersMatched
    apply List.filter_congr
    intro u _
    simp [buildFilters, matchesFilters, roleMatches, h1, h2, ha, hl]

/-- Closed instance of the C9 theorem: on a concrete database, an admin
actor with no locations and an empty query matches exactly the
non-superAdmin users. -/
theorem c9_admin_empty_locales_unscoped_witness :
    getAllUsersMatched dbCapReached ⟨none, none, none⟩ ⟨7, Role.admin, []⟩
      = dbCapReached.filter (fun u => u.role != Role.superAdmin) :=
  (c9_admin_empty_locales_unscoped dbCapReached ⟨none, none, none⟩
    ⟨7, Role.admin, []⟩ rfl rfl).2 rfl rfl

/-- C5: For a `superAdmin`-role target and a `superAdmin` actor, both
`deleteUser` and `toggleUserStatus(activo:false)` succeed exactly when at
least two active superAdmins exist before the action: with ≥ 2 they
soft-deactivate the target, with ≤ 1 they reject with the invariant
violation (and, rejecting before any write, leave the target active). -/
theorem c5_last_active_superAdmin_guard (db : List User) (actor : Actor)
    (userId : Nat) (user : User)
    (hfind : findById db userId = some user)
    (hrole : user.role = Role.superAdmin)
    (hactor : actor.role = Role.superAdmin) :
    (2 ≤ countActiveSuperAdmins db →
      deleteUser db actor userId = Outcome.ok (softDeactivate db userId) ∧
      toggleUserStatus db actor userId false
        = Outcome.ok (setActivo db userId false)) ∧
    (countActiveSuperAdmins db ≤ 1 →
      deleteUser db actor userId = Outcome.invariantViolation ∧
      toggleUserStatus db actor userId false = Outcome.invariantViolation) := by
  constructor
  · intro h2
    have hn : ¬ (countActiveSuperAdmins db ≤ 1) := by omega
    constructor
    · unfold deleteUser
      simp [hfind, hactor, hrole, hn]
    · unfold toggleUserStatus
      simp [hfind, hactor, hrole, hn]
  · intro h1
    constructor
    · unfold deleteUser
      simp [hfind, hactor, hrole, h1]
    · unfold toggleUserStatus
      simp [hfind, hactor, hrole, h1]

/-- Closed instance of the C5 theorem: with two active superAdmins,
deleting one succeeds and deactivates it. -/
theorem c5_last_active_superAdmin_guard_witness :
    deleteUser dbTwoSupers ⟨41, Role.superAdmin, []⟩ 42
      = Outcome.ok (softDeactivate dbTwoSupers 42) ∧
    toggleUserStatus dbTwoSupers ⟨41, Role.superAdmin, []⟩ 42 false
      = Outcome.ok (setActivo dbTwoSupers 42 false) :=
  (c5_last_active_superAdmin_guard dbTwoSupers ⟨41, Role.superAdmin, []⟩ 42
    (mkUser 42 Role.superAdmin [] true) (by decide) (by decide) rfl).1 (by decide)

/-- The payload applied by `updateUserResolved` carries no credential
fields: they are deleted unconditionally before the write, and the two
later steps never reintroduce them. -/
theorem finalPayload_credentials (actor : Actor) (user : User) (upd : UpdateData) :
    (finalPayload actor user upd).password = none ∧
    (finalPayload actor user upd).intentosFallidos = none ∧
    (finalPayload actor user upd).bloqueadoHasta = none ∧
    (finalPayload actor user upd).passwordResetToken = none ∧
    (finalPayload actor user upd).passwordResetExpires = none := by
  unfold finalPayload applyPrincipalRule applyFlagRule stripCredentials stripAdmin
  repeat' split
  all_goals exact ⟨rfl, rfl, rfl, rfl, rfl⟩

/-- When the payload does not itself set `esAdministradorLocal`, the
applied payload either leaves the flag alone or forces it to `true`; it is
never forced to `false`. -/
theorem finalPayload_flag (actor : Actor) (user : User) (upd : UpdateData)
    (h : upd.esAdministradorLocal = none) :
    (finalPayload actor user upd).esAdministradorLocal = none ∨
    (finalPayload actor user upd).esAdministradorLocal = some true := by
  unfold finalPayload applyPrincipalRule applyFlagRule stripCredentials stripAdmin
  repeat' split
  all_goals first | exact Or.inr rfl | exact Or.inl h

/-- For an `admin` actor the applied payload is exactly the stripped one. -/
theorem finalPayload_admin_actor (actor : Actor) (user : User) (upd : UpdateData)
    (h : actor.role = Role.admin) :
    finalPayload actor user upd = adminStripped upd := by
  unfold finalPayload applyPrincipalRule applyFlagRule stripCredentials stripAdmin adminStripped
  simp [h]

/-- `updateUserResolved` never returns the invariant violation: the only
invariant rejection in `updateUser` is the superAdmin cap block. -/
theorem updateUserResolved_ne_invariantViolation (db : List User)
    (locals : List Nat) (actor : Actor) (userId : Nat) (user : User)
    (upd : UpdateData) :
    updateUserResolved db locals actor userId user upd ≠ Outcome.invariantViolation := by
  unfold updateUserResolved
  repeat' split
  all_goals intro hx
  all_goals exact Outcome.noConfusion hx

/-- Shape of a successful `updateUserResolved`: the database with the
target overwritten by the transformed payload. -/
theorem updateUserResolved_ok (db db' : List User) (locals : List Nat)
    (actor : Actor) (userId : Nat) (user : User) (upd : UpdateData)
    (h : updateUserResolved db locals actor userId user upd = Outcome.ok db') :
    db' = db.map (fun u =>
      if u.id == userId then applyUpdate u (finalPayload actor user upd) else u) := by
  unfold updateUserResolved at h
  repeat' split at h
  all_goals first
  | exact Outcome.noConfusion h
  | (injection h with h2; exact h2.symm)

/-- C4: The superAdmin cap. `createUser` rejects with the invariant
violation exactly when the body requests role `superAdmin` and the current
(active plus inactive) superAdmin count has reached `MAX_SUPER_ADMINS`;
`updateUser` (on an existing target) rejects with the invariant violation
exactly when the payload requests role `superAdmin`, the target is not
already a superAdmin, and the count has reached the cap — a target that
already holds the role is not subject to the bound. Both rejections occur
before any write, so no user is created or modified. -/
theorem c4_superAdmin_cap (db : List User) (locals : List Nat) (actor : Actor)
    (body : CreateBody) (newId : Nat) (userId : Nat) (user : User)
    (upd : UpdateData)
    (hfind : findById db userId = some user) :
    (createUser db locals actor body newId = Outcome.invariantViolation ↔
      (body.role = some Role.superAdmin ∧ MAX_SUPER_ADMINS ≤ countSuperAdmins db)) ∧
    (updateUser db locals actor userId upd = Outcome.invariantViolation ↔
      (upd.role = some Role.superAdmin ∧ user.role ≠ Role.superAdmin ∧
        MAX_SUPER_ADMINS ≤ countSuperAdmins db)) := by
  constructor
  · constructor
    · intro h
      by_cases hc : body.role = some Role.superAdmin ∧
          MAX_SUPER_ADMINS ≤ countSuperAdmins db
      · exact hc
      · exfalso
        unfold createUser at h
        have hb : ¬ ((body.role == some Role.superAdmin
            && decide (MAX_SUPER_ADMINS ≤ countSuperAdmins db)) = true) := by
          simp only [Bool.and_eq_true, beq_iff_eq, decide_eq_true_eq]
          exact fun hx => hc hx
        rw [if_neg hb] at h
        repeat' split at h
        all_goals exact Outcome.noConfusion h
    · rintro ⟨h1, h2⟩
      unfold createUser
      rw [if_pos (by simp [h1, h2])]
  · constructor
    · intro h
      unfold updateUser at h
      simp only [hfind] at h
      repeat' split at h
      all_goals first
      | exact absurd h (updateUserResolved_ne_invariantViolation db locals actor userId user upd)
      | exact Outcome.noConfusion h
      | (rename_i hA hB
         simp only [beq_iff_eq] at hA
         simp only [Bool.and_eq_true, bne_iff_ne, decide_eq_true_eq] at hB
         exact ⟨hA, hB.1, hB.2⟩)
    · rintro ⟨h1, h2, h3⟩
      unfold updateUser
      simp [hfind, h1, h2, h3]

/-- Closed instance of the C4 theorem: on a database at the cap, creating a
fifth superAdmin and promoting an existing `usuario` both reject with the
invariant violation. -/
theorem c4_superAdmin_cap_witness :
    createUser dbCapReached [] ⟨1, Role.superAdmin, []⟩
      ⟨"n", "e", "p", some Role.superAdmin, none⟩ 60 = Outcome.invariantViolation ∧
    updateUser dbCapReached [] ⟨1, Role.superAdmin, []⟩ 15 updPromote
      = Outcome.invariantViolation := by
  constructor
  · exact (c4_superAdmin_cap dbCapReached [] ⟨1, Role.superAdmin, []⟩
      ⟨"n", "e", "p", some Role.superAdmin, none⟩ 60 15
      (mkUser 15 Role.usuario [10] true) updPromote (by decide)).1.mpr
      ⟨rfl, by decide⟩
  · exact (c4_superAdmin_cap dbCapReached [] ⟨1, Role.superAdmin, []⟩
      ⟨"n", "e", "p", some Role.superAdmin, none⟩ 60 15
      (mkUser 15 Role.usuario [10] true) updPromote (by decide)).2.mpr
      ⟨rfl, by decide, by decide⟩

/-- C2 (amended): For an `admin` actor, `getUserById` is Forbidden on
every found target: the shared-location check of lines 210-214 compares
ObjectIds against populated documents and never passes, so `admin` and
`superAdmin` targets are denied regardless of shared locations — as the
claim says — and so is every other target. `updateUser` on an `admin` or
`superAdmin` target never succeeds: it is Forbidden, except that the cap
violation fires first when the payload requests role `superAdmin` against a
not-yet-superAdmin target with the cap reached (excluded by the last
hypothesis). -/
theorem c2_admin_actor_on_privileged_targets (db : List User)
    (locals : List Nat) (actor : Actor) (userId : Nat) (user : User)
    (upd : UpdateData)
    (hactor : actor.role = Role.admin)
    (hfind : findById db userId = some user) :
    getUserById db actor userId = Outcome.forbidden ∧
    ((user.role = Role.admin ∨ user.role = Role.superAdmin) →
      ¬(upd.role = some Role.superAdmin ∧ user.role ≠ Role.superAdmin ∧
          MAX_SUPER_ADMINS ≤ countSuperAdmins db) →
      updateUser db locals actor userId upd = Outcome.forbidden) := by
  constructor
  · have hany : ∀ (ls : List Nat), ls.any (fun _ => false) = false := by
      intro ls
      induction ls with
      | nil => rfl
      | cons a t ih => simp [ih]
    have hsp : sharesLocalPopulated user actor = false := by
      unfold sharesLocalPopulated populatedToStringEq
      simp only [hany]
    unfold getUserById
    by_cases hs : user.role = Role.superAdmin
    · simp [hfind, hactor, hs]
    · simp [hfind, hactor, hs, hsp]
  · intro hpriv hcap
    have hpa : puedeAdministrar actor user = false := by
      unfold puedeAdministrar
      rcases hpriv with h | h <;> simp [h]
    have hres : updateUserResolved db locals actor userId user upd
        = Outcome.forbidden := by
      unfold updateUserResolved
      simp [hactor, hpa]
    unfold updateUser
    rcases hpriv with h | h
    · by_cases hu : upd.role = some Role.superAdmin
      · have hnc : ¬ (MAX_SUPER_ADMINS ≤ countSuperAdmins db) := by
          intro hcount
          exact hcap ⟨hu, by simp [h], hcount⟩
        simp [hu, hfind, h, hnc, hres]
      · simp [hu, hfind, hres]
    · simp [hfind, h, hres]

/-- Closed instance of the amended C2 theorem: an admin target sharing
location 10 with the admin actor is Forbidden to view and Forbidden to
update. -/
theorem c2_admin_actor_on_privileged_targets_witness :
    getUserById [adminTarget] ⟨4, Role.admin, [10]⟩ 3 = Outcome.forbidden ∧
    updateUser [adminTarget] [] ⟨4, Role.admin, [10]⟩ 3 UpdateData.empty
      = Outcome.forbidden := by
  have th := c2_admin_actor_on_privileged_targets [adminTarget] []
    ⟨4, Role.admin, [10]⟩ 3 adminTarget UpdateData.empty rfl (by decide)
  exact ⟨th.1, th.2 (Or.inl (by decide)) (by decide)⟩

/-- C6 (amended): For an `admin` actor on a permitted target, the payload
fields `role`, `locales`, `localPrincipal` and the credential fields are
silently stripped and the update proceeds with the remaining fields —
provided the payload does not request role `superAdmin` with the cap
already reached, in which case the cap check (running before the stripping)
rejects instead. For every actor, any update that succeeds leaves the
target's credential fields unchanged. -/
theorem c6_admin_update_stripping (db : List User) (locals : List Nat)
    (actor : Actor) (userId : Nat) (user : User) (upd : UpdateData)
    (hfind : findById db userId = some user) :
    (actor.role = Role.admin → puedeAdministrar actor user = true →
      ¬(upd.role = some Role.superAdmin ∧ MAX_SUPER_ADMINS ≤ countSuperAdmins db) →
      updateUser db locals actor userId upd
        = Outcome.ok (db.map (fun u =>
            if u.id == userId then applyUpdate u (adminStripped upd) else u))) ∧
    (∀ db', updateUser db locals actor userId upd = Outcome.ok db' →
      (findById db' userId).map User.password = some user.password ∧
      (findById db' userId).map User.intentosFallidos = some user.intentosFallidos ∧
      (findById db' userId).map User.bloqueadoHasta = some user.bloqueadoHasta ∧
      (findById db' userId).map User.passwordResetToken = some user.passwordResetToken ∧
      (findById db' userId).map User.passwordResetExpires
        = some user.passwordResetExpires) := by
  constructor
  · intro ha hperm hcap
    have huser : user.role = Role.usuario := by
      unfold puedeAdministrar at hperm
      simp only [Bool.and_eq_true, beq_iff_eq] at hperm
      exact hperm.1
    have hstrip : (stripAdmin actor upd).role = none := by
      unfold stripAdmin
      simp [ha]
    have hres : updateUserResolved db locals actor userId user upd
        = Outcome.ok (db.map (fun u =>
            if u.id == userId then applyUpdate u (finalPayload actor user upd) else u)) := by
      unfold updateUserResolved
      simp [ha, hperm, huser, hstrip]
    rw [finalPayload_admin_actor actor user upd ha] at hres
    unfold updateUser
    by_cases hu : upd.role = some Role.superAdmin
    · have hnc : ¬ (MAX_SUPER_ADMINS ≤ countSuperAdmins db) := by
        intro hcount
        exact hcap ⟨hu, hcount⟩
      simp [hu, hfind, huser, hnc, hres]
    · simp [hu, hfind, hres]
  · intro db' hok
    have hres : updateUserResolved db locals actor userId user upd = Outcome.ok db' := by
      unfold updateUser at hok
      simp only [hfind] at hok
      repeat' split at hok
      all_goals first
      | exact Outcome.noConfusion hok
      | exact hok
    have hdb := updateUserResolved_ok db db' locals actor userId user upd hres
    subst hdb
    rw [findById_modify db userId (fun u => applyUpdate u (finalPayload actor user upd))
        (fun u => applyUpdate_id u (finalPayload actor user upd))]
    rw [hfind]
    obtain ⟨hp, hi, hb, ht, he⟩ := finalPayload_credentials actor user upd
    simp [applyUpdate, hp, hi, hb, ht, he]

/-- Closed instance of the amended C6 theorem: with the cap not reached, an
admin actor's payload `{role:'superAdmin', nombre:'x'}` against a permitted
target is stripped down to the `nombre` change and the update proceeds. -/
theorem c6_admin_update_stripping_witness :
    updateUser dbCapFree [10] ⟨20, Role.admin, [10]⟩ 15 updRolePlusNombre
      = Outcome.ok (dbCapFree.map (fun u =>
          if u.id == 15 then applyUpdate u (adminStripped updRolePlusNombre) else u)) :=
  (c6_admin_update_stripping dbCapFree [10] ⟨20, Role.admin, [10]⟩ 15
    (mkUser 15 Role.usuario [10] true) updRolePlusNombre (by decide)).1 rfl
    (by decide) (by decide)

/-- C8 (amended): `createUser` establishes the biconditional — the created
user's `esAdministradorLocal` equals (role = `admin` and `locales`
nonempty) — and `updateUser` sets the flag `true` when the payload sets
role `admin` with locations present, but never resets it to `false`: when
the payload does not set the flag itself, a target whose flag is `true`
keeps it `true` through any successful update, including demotions and
location changes that falsify the biconditional. -/
theorem c8_flag_creation_and_never_cleared (db db' : List User)
    (locals : List Nat) (actor : Actor) (body : CreateBody) (newId userId : Nat)
    (user : User) (upd : UpdateData) :
    (createUser db locals actor body newId = Outcome.ok db' →
      ∃ u, db' = db ++ [u] ∧
        u.esAdministradorLocal = (u.role == Role.admin && !u.locales.isEmpty)) ∧
    (findById db userId = some user → upd.esAdministradorLocal = none →
      user.esAdministradorLocal = true →
      updateUser db locals actor userId upd = Outcome.ok db' →
      (findById db' userId).map User.esAdministradorLocal = some true) := by
  constructor
  · intro hok
    unfold createUser at hok
    repeat' split at hok
    all_goals first
    | exact Outcome.noConfusion hok
    | exact ⟨_, (Outcome.ok.inj hok).symm, rfl⟩
  · intro hfind hnone htrue hok
    have hres : updateUserResolved db locals actor userId user upd = Outcome.ok db' := by
      unfold updateUser at hok
      simp only [hfind] at hok
      repeat' split at hok
      all_goals first
      | exact Outcome.noConfusion hok
      | exact hok
    have hdb := updateUserResolved_ok db db' locals actor userId user upd hres
    subst hdb
    rw [findById_modify db userId (fun u => applyUpdate u (finalPayload actor user upd))
        (fun u => applyUpdate_id u (finalPayload actor user upd))]
    rw [hfind]
    rcases finalPayload_flag actor user upd hnone with hf | hf
    · simp [applyUpdate, hf, htrue]
    · simp [applyUpdate, hf]

/-- Closed instance of the amended C8 theorem: a superAdmin creating an
admin with location 10 yields the flag `true` in accordance with the
biconditional, and a name-only update of an admin whose flag is `true`
keeps the flag `true`. -/
theorem c8_flag_creation_and_never_cleared_witness :
    (∃ u, [createdAdmin] = ([] : List User) ++ [u] ∧
      u.esAdministradorLocal = (u.role == Role.admin && !u.locales.isEmpty)) ∧
    (findById dbFlagDemoAfter 30).map User.esAdministradorLocal = some true := by
  constructor
  · exact (c8_flag_creation_and_never_cleared [] [createdAdmin] [10]
      ⟨1, Role.superAdmin, []⟩ ⟨"n", "e", "p", some Role.admin, some [10]⟩ 7 0
      adminA UpdateData.empty).1 (by decide)
  · exact (c8_flag_creation_and_never_cleared dbFlagDemo dbFlagDemoAfter []
      ⟨31, Role.superAdmin, []⟩ ⟨"n", "e", "p", none, none⟩ 0 30
      (mkUser 30 Role.admin [10] true) updNombreOnly).2 (by decide) rfl (by decide)
      (by rfl)
